import Mathlib

/-!
Verification of the `CodeBuilder` component of `aiida/control/code.py`
(class `CodeBuilder`: a builder that accumulates a specification of code
attributes, validates combinations of them, and materialises a `Code`
object).

The Python class is shallowly embedded below.  The specification bag
`self._code_spec` (a Python `dict` of keyword arguments) becomes an
insertion-ordered association list; Python exceptions become an explicit
`Except` result; the exception payloads (which in Python are format
strings) are kept structured in `CVMsg` together with a rendering
function translated from the format strings.  The file system touched by
`new()` (`os.listdir`, `os.path.realpath(os.path.join(...))`) is an
abstract parameter: the list of files is opaque data stored into the
built `Code` and its content never influences control flow; directory
listing is modelled as total.

`aiida.utils.error_accumulator.ErrorAccumulator` is imported by the
source but its code is not part of this excerpt; it is modelled from the
specification where marked below.
-/

namespace AiidaControlCode

/-- The enumeration `CodeBuilder.CodeType` from the source. -/
inductive CodeType where
  | STORE_AND_UPLOAD
  | ON_COMPUTER
deriving DecidableEq

/-- The Python `.value` of each `CodeType` member, as in the source. -/
def CodeType.val : CodeType → String
  | .STORE_AND_UPLOAD => "store in the db and upload"
  | .ON_COMPUTER => "on computer"

/-- The Python `.name` of each `CodeType` member. -/
def CodeType.memberName : CodeType → String
  | .STORE_AND_UPLOAD => "STORE_AND_UPLOAD"
  | .ON_COMPUTER => "ON_COMPUTER"

/-- Values stored in the specification bag of the builder.  The source treats
them dynamically; the claims need strings, `CodeType` members, computer
objects, plugin (entry-point) objects carrying a `.name`, and `None`. -/
inductive Value where
  | str (s : String)
  | codeType (t : CodeType)
  | computer (computerName : String)
  | plugin (pluginName : String)
  | pyNone
deriving DecidableEq

/-- Python truthiness of a specification value, as used by the
`if self._get(...)` guards in the validators: the empty string and
`None` are falsy; enum members, computer and plugin objects are truthy. -/
def truthy : Value → Bool
  | .str s => s != ""
  | .codeType _ => true
  | .computer _ => true
  | .plugin _ => true
  | .pyNone => false

/-- Python `==` between a specification value and a `CodeType` member
(enum members compare equal only to themselves, never to their value
string or to anything else). -/
def valueEqCT : Value → CodeType → Bool
  | .codeType t, t2 => t == t2
  | _, _ => false

/-- Python `value in CodeBuilder.CodeType` membership test (enum34 /
early-Python semantics: true exactly for members of the enumeration). -/
def isCTMember : Value → Bool
  | .codeType _ => true
  | _ => false

/-- Python attribute access `value.name`, used by
`set_input_plugin_name(self._get_and_count("input_plugin", used).name)`:
plugin and computer objects and enum members expose `.name`; a plain
string or `None` raises `AttributeError`. -/
def attrNameOf : Value → Option String
  | .plugin n => some n
  | .computer n => some n
  | .codeType t => some t.memberName
  | .str _ => none
  | .pyNone => none

/-- Minimal Python `str()` rendering of a value, used only inside error
message rendering. -/
def Value.text : Value → String
  | .str s => s
  | .codeType t => "CodeType." ++ t.memberName
  | .computer n => n
  | .plugin n => n
  | .pyNone => "None"

/-- Structured payloads of the `CodeValidationError`s raised by the
source; each constructor corresponds to one `raise` site.  `text`
renders them following the format strings of the source. -/
inductive CVMsg where
  | notSet (key : String)
  | invalidCodeType (got : Value)
  | invalidOptions (msgs : List String)
  | unknownParams (keys : List String)
deriving DecidableEq

/-- Rendering of the error payloads following the format strings of
the source (key + " not set"; "Unknown parameters passed to the
CodeBuilder: " followed by the joined keys; ...).  Python renders the
`invalidOptions` list with brackets and quotes; only the joined content
is modelled. -/
def CVMsg.text : CVMsg → String
  | .notSet key => key ++ " not set"
  | .invalidCodeType got =>
      "invalid code type: must be one of [CodeType.STORE_AND_UPLOAD, CodeType.ON_COMPUTER], not "
        ++ got.text
  | .invalidOptions msgs => String.intercalate ", " msgs
  | .unknownParams keys =>
      "Unknown parameters passed to the CodeBuilder: " ++ String.intercalate ", " keys

/-- Errors that the embedded operations can produce.  `codeValidation`
is a `CodeBuilder.CodeValidationError` raised with a single payload;
`codeValidationAgg` is the same Python class raised by the error
accumulator with the whole list of collected payloads; `attributeError`
is a Python `AttributeError`. -/
inductive Err where
  | codeValidation (m : CVMsg)
  | codeValidationAgg (msgs : List CVMsg)
  | attributeError (attr : String)
deriving DecidableEq

/-- The Python exception class of an error: both single and aggregate
validation errors are raised as the one class
`CodeBuilder.CodeValidationError`. -/
inductive PyExcClass where
  | codeValidationError
  | attributeError
deriving DecidableEq

def errClass : Err → PyExcClass
  | .codeValidation _ => .codeValidationError
  | .codeValidationAgg _ => .codeValidationError
  | .attributeError _ => .attributeError

/-- The specification bag `self._code_spec`: a Python `dict` from key to
value, kept as an insertion-ordered association list (keyword arguments
give pairwise distinct keys). -/
abbrev Spec := List (String × Value)

/-- `dict.get(key)`: the value at `key`, or `None` (here `none`). -/
def specGet : Spec → String → Option Value
  | [], _ => none
  | (k, v) :: rest, key => if k == key then some v else specGet rest key

/-- `dict[key] = value`: replace in place, preserving insertion order,
appending when the key is new. -/
def specSet : Spec → String → Value → Spec
  | [], key, v => [(key, v)]
  | (k, w) :: rest, key, v =>
      if k == key then (key, v) :: rest else (k, w) :: specSet rest key v

/-- Truthiness of `self._get(key)` (missing key gives `None`, falsy). -/
def optTruthy : Option Value → Bool
  | some v => truthy v
  | none => false

/-- `self._get("code_type") == member` (missing key gives `None`, which
is not equal to any enum member). -/
def optEqCT : Option Value → CodeType → Bool
  | some v, t => valueEqCT v t
  | none, _ => false

/-- The check `key.startswith("_")` from the source, modelled
structurally on the character list of the string. -/
def startswithUnderscore (key : String) : Bool :=
  match key.data with
  | [] => false
  | c :: _ => c == '_'

/-- `CodeBuilder.validate_code_type` on a specification: a truthy
`code_type` value that is not a member of the enumeration raises; a
missing or falsy value passes, a member passes.  The result is the
payload of the raised error, if any. -/
def validate_code_type (s : Spec) : Option CVMsg :=
  match specGet s "code_type" with
  | none => none
  | some v => if truthy v && !isCTMember v then some (.invalidCodeType v) else none

/-- `CodeBuilder.validate_upload`: if the code is stored and uploaded,
catch invalid on-computer attributes.  The guards test truthiness of
`self._get(...)`, exactly as in the source. -/
def validate_upload (s : Spec) : Option CVMsg :=
  let messages :=
    if optEqCT (specGet s "code_type") .STORE_AND_UPLOAD then
      (if optTruthy (specGet s "computer") then
        ["invalid option for store-and-upload code: \"computer\""] else [])
      ++ (if optTruthy (specGet s "remote_abs_path") then
        ["invalid option for store-and-upload code: \"remote_abs_path\""] else [])
    else []
  if messages.isEmpty then none else some (.invalidOptions messages)

/-- `CodeBuilder.validate_installed`: if the code is on-computer, catch
invalid store-and-upload attributes. -/
def validate_installed (s : Spec) : Option CVMsg :=
  let messages :=
    if optEqCT (specGet s "code_type") .ON_COMPUTER then
      (if optTruthy (specGet s "code_folder") then
        ["invalid options for on-computer code: \"code_folder\""] else [])
      ++ (if optTruthy (specGet s "code_rel_path") then
        ["invalid options for on-computer code: \"code_rel_path\""] else [])
    else []
  if messages.isEmpty then none else some (.invalidOptions messages)

/-- One pass of `self._err_acc.run` over the three registered
validators, in source order, collecting the payload of each error they
raise (the validators read only `self._code_spec`). -/
def runValidations (s : Spec) : List CVMsg :=
  (validate_code_type s).toList ++ (validate_upload s).toList ++ (validate_installed s).toList

/-- The builder state: the specification bag `self._code_spec` plus the
list of error payloads collected so far by `self._err_acc`.

Modelled from the spec: `aiida.utils.error_accumulator.ErrorAccumulator`
is imported by the source but its code is not part of this excerpt.
Following the specification, the accumulator "accumulates every
violation message (does not short-circuit on first failure)" and is
created once per builder (`self._err_acc` in `__init__`), so collected
messages persist in the builder instance across validation runs; this
persistence is required by the specification of `set(key, value)`,
which demands that after an invalid mutation is rolled back to the
(valid) pre-call specification, "a validation error is raised listing
all violated rules" — the second `validate()` call in
`_set_code_attr` runs on the restored specification and can only raise
from retained messages. -/
structure CodeBuilder where
  _code_spec : Spec
  _err_acc : List CVMsg
deriving DecidableEq

/-- `CodeBuilder.__init__(**kwargs)`: store the keyword arguments as the
specification and create a fresh error accumulator. -/
def CodeBuilder.fromKwargs (kwargs : Spec) : CodeBuilder :=
  { _code_spec := kwargs, _err_acc := [] }

/-- `CodeBuilder._get`: return a spec value, or `None` if not defined. -/
def CodeBuilder._get (b : CodeBuilder) (key : String) : Option Value :=
  specGet b._code_spec key

/-- `CodeBuilder.validate(raise_error)`: run the three validators
through the accumulator, then `result(...)`: when `raise_error` holds
and messages have been collected, raise the aggregate
`CodeValidationError` carrying all of them; otherwise return the
success flag together with the collected messages.

Modelled from the spec (see `CodeBuilder._err_acc`): the accumulator
retains the collected messages in the builder across calls. -/
def CodeBuilder.validate (b : CodeBuilder) (raise_error : Bool) :
    CodeBuilder × Except Err (Bool × List CVMsg) :=
  let acc := b._err_acc ++ runValidations b._code_spec
  let b2 : CodeBuilder := { b with _err_acc := acc }
  if raise_error && !acc.isEmpty then (b2, .error (.codeValidationAgg acc))
  else (b2, .ok (acc.isEmpty, acc))

/-- `CodeBuilder.__getattr__`: access a code attribute used to build the
code.  A key that does not start with an underscore is looked up in the
specification, raising a `CodeValidationError` rendered as key + " not set" when
missing; underscore keys fall through to `None`. -/
def CodeBuilder.getattr (b : CodeBuilder) (key : String) : Except Err Value :=
  if !(startswithUnderscore key) then
    match specGet b._code_spec key with
    | some v => .ok v
    | none => .error (.codeValidation (.notSet key))
  else .ok .pyNone

/-- Adding a key to the `used` set of `_get_and_count` (a Python `set`,
kept as a duplicate-free list in insertion order). -/
def usedAdd (used : List String) (key : String) : List String :=
  if used.contains key then used else used ++ [key]

/-- `CodeBuilder._get_and_count`: return a spec value, or raise if not
defined; on success add the key to the `used` set (the key is not added
when the lookup raises). -/
def CodeBuilder._get_and_count (b : CodeBuilder) (key : String) (used : List String) :
    Except Err (Value × List String) :=
  match b.getattr key with
  | .error e => .error e
  | .ok v => .ok (v, usedAdd used key)

/-- `CodeBuilder._set_code_attr`: set a code attribute if it passes
validation — snapshot the specification, apply the mutation,
re-validate without raising; on failure restore the snapshot and call
`validate()` again, which raises the aggregate error built from the
retained messages.  The result is the new builder state and the raised
error, if any. -/
def CodeBuilder._set_code_attr (b : CodeBuilder) (key : String) (v : Value) :
    CodeBuilder × Option Err :=
  let backup := b._code_spec
  let b1 : CodeBuilder := { b with _code_spec := specSet b._code_spec key v }
  let step1 := b1.validate false
  match step1 with
  | (b2, .error e) => (b2, some e)
  | (b2, .ok (success, _)) =>
    if success then (b2, none)
    else
      let b3 : CodeBuilder := { b2 with _code_spec := backup }
      match b3.validate true with
      | (b4, .error e) => (b4, some e)
      | (b4, .ok _) => (b4, none)

/-- `CodeBuilder.__setattr__`: keys not starting with an underscore go
through `_set_code_attr`; underscore keys only touch the instance
dictionary, not the specification.  (On the success path the source
additionally stores the value as a plain instance attribute shadowing
`__getattr__`; it then always equals the specification value, so it is
not modelled separately.) -/
def CodeBuilder.setattr (b : CodeBuilder) (key : String) (v : Value) :
    CodeBuilder × Option Err :=
  if !(startswithUnderscore key) then b._set_code_attr key v else (b, none)

/-- The two constructor calls of `aiida.orm.Code` made by `new()`:
`Code(local_executable=..., files=...)` for a store-and-upload code and
`Code(remote_computer_exec=(computer, remote_abs_path))` for an
on-computer code. -/
inductive CodeCore where
  | localCode (local_executable : Value) (files : List String)
  | remoteCode (computer : Value) (remote_abs_path : Value)
deriving DecidableEq

/-- The built `Code` object after the metadata setters of `new()` have
run (`label`, `description`, `set_input_plugin_name`,
`set_prepend_text`, `set_append_text`). -/
structure Code where
  core : CodeCore
  label : Value
  description : Value
  input_plugin_name : String
  prepend_text : Value
  append_text : Value
deriving DecidableEq

/-- Abstract file system used by `new()`: `listdir` models
`os.listdir(folder)` and `realjoin` models
`os.path.realpath(os.path.join(folder, f))`.  Both are opaque to the
builder — the resulting file list is stored in the `Code` unchanged and
never influences control flow — and are modelled total. -/
structure FileSys where
  listdir : Value → List String
  realjoin : Value → String → String

/-- Lexicographic order on strings by code point, as Python `sorted`
orders plain strings (structural, on the character lists). -/
def charListLe : List Char → List Char → Bool
  | [], _ => true
  | _ :: _, [] => false
  | c :: cs, d :: ds =>
    if c.toNat < d.toNat then true
    else if d.toNat < c.toNat then false
    else charListLe cs ds

def strLe (a b : String) : Bool := charListLe a.data b.data

/-- Insert a string into a sorted list (ascending). -/
def insertSorted (x : String) : List String → List String
  | [] => [x]
  | y :: ys => if strLe x y then x :: y :: ys else y :: insertSorted x ys

/-- Python `sorted(...)` on a list of strings (insertion sort). -/
def sortStrings (l : List String) : List String :=
  l.foldr insertSorted []

/-- The metadata tail of `new()`, common to both variants: consume
`label`, `description`, `input_plugin` (whose `.name` is read),
`prepend_text` and `append_text`, threading the `used` set. -/
def buildCommon (b : CodeBuilder) (core : CodeCore) (used : List String) :
    Except Err (Code × List String) :=
  match b._get_and_count "label" used with
  | .error e => .error e
  | .ok (lab, u1) =>
    match b._get_and_count "description" u1 with
    | .error e => .error e
    | .ok (desc, u2) =>
      match b._get_and_count "input_plugin" u2 with
      | .error e => .error e
      | .ok (plug, u3) =>
        match attrNameOf plug with
        | none => .error (.attributeError "name")
        | some pname =>
          match b._get_and_count "prepend_text" u3 with
          | .error e => .error e
          | .ok (pre, u4) =>
            match b._get_and_count "append_text" u4 with
            | .error e => .error e
            | .ok (app, u5) =>
              .ok ({ core := core, label := lab, description := desc,
                     input_plugin_name := pname, prepend_text := pre,
                     append_text := app }, u5)

/-- The variant branch of `new()` after validation: for a
store-and-upload code, list the folder named by
`_get_and_count("code_folder", used)` and join each entry against
`self.code_folder` (the same specification value), then construct the
code from `_get_and_count("code_rel_path", used)` and the file list;
for any other variant tag construct an on-computer code from
`_get_and_count("computer", used)` and
`_get_and_count("remote_abs_path", used)`; then run the common
metadata tail. -/
def buildSteps (fs : FileSys) (b : CodeBuilder) (ctv : Value) :
    Except Err (Code × List String) :=
  if valueEqCT ctv .STORE_AND_UPLOAD then
    match b._get_and_count "code_folder" [] with
    | .error e => .error e
    | .ok (folder, u1) =>
      let file_list := (fs.listdir folder).map (fs.realjoin folder)
      match b._get_and_count "code_rel_path" u1 with
      | .error e => .error e
      | .ok (rel, u2) =>
        buildCommon b (.localCode rel file_list) u2
  else
    match b._get_and_count "computer" [] with
    | .error e => .error e
    | .ok (comp, u1) =>
      match b._get_and_count "remote_abs_path" u1 with
      | .error e => .error e
      | .ok (rap, u2) =>
        buildCommon b (.remoteCode comp rap) u2

/-- `CodeBuilder.new`: build and return a new code instance (not
stored).  First `self.validate()` (raising on accumulated messages);
then record the passed keys, read the variant tag through plain
attribute access (`self.code_type`, raising "code_type not set" when
missing and — notably — never adding it to the `used` set), run the
variant branch and metadata setters, and finally complain about keys
that were passed but never used:
`sorted(passed_keys - used)` joined into a `CodeValidationError`. -/
def CodeBuilder.new (fs : FileSys) (b : CodeBuilder) : CodeBuilder × Except Err Code :=
  match b.validate true with
  | (b1, .error e) => (b1, .error e)
  | (b1, .ok _) =>
    let passed_keys := b1._code_spec.map Prod.fst
    (b1,
      match b1.getattr "code_type" with
      | .error e => .error e
      | .ok ctv =>
        match buildSteps fs b1 ctv with
        | .error e => .error e
        | .ok (code, used) =>
          let unknowns := passed_keys.filter (fun k => !(used.contains k))
          if !unknowns.isEmpty then
            .error (.codeValidation (.unknownParams (sortStrings unknowns)))
          else .ok code)

/-! ### Helper lemmas -/

lemma specSet_idem (s : Spec) (key : String) (v : Value) :
    specSet (specSet s key v) key v = specSet s key v := by
  induction s with
  | nil => simp [specSet]
  | cons p rest ih =>
    obtain ⟨k, w⟩ := p
    by_cases h : k == key
    · simp [specSet, h]
    · simp only [specSet, h, if_neg, Bool.false_eq_true, not_false_eq_true, if_false]
      rw [ih]

lemma specGet_mem {s : Spec} {key : String} {v : Value}
    (h : specGet s key = some v) : key ∈ s.map Prod.fst := by
  induction s with
  | nil => simp [specGet] at h
  | cons p rest ih =>
    obtain ⟨k, w⟩ := p
    by_cases hk : k == key
    · simp [List.map, eq_of_beq hk]
    · simp only [specGet, hk, Bool.false_eq_true, if_false] at h
      simp [List.map, ih h]

lemma mem_insertSorted {x y : String} {l : List String} :
    x ∈ insertSorted y l ↔ x = y ∨ x ∈ l := by
  induction l with
  | nil => simp [insertSorted]
  | cons z zs ih =>
    by_cases h : strLe y z
    · simp [insertSorted, h]
    · simp only [insertSorted, h, Bool.false_eq_true, if_false, List.mem_cons, ih]
      tauto

lemma mem_sortStrings {x : String} {l : List String} :
    x ∈ sortStrings l ↔ x ∈ l := by
  induction l with
  | nil => simp [sortStrings]
  | cons y ys ih =>
    simp only [sortStrings, List.foldr] at ih ⊢
    rw [mem_insertSorted, ih, List.mem_cons]

lemma gac_ok {b : CodeBuilder} {key : String} {u : List String} {v : Value}
    {u2 : List String} (h : b._get_and_count key u = .ok (v, u2)) :
    u2 = usedAdd u key := by
  unfold CodeBuilder._get_and_count at h
  cases hg : b.getattr key with
  | error e => rw [hg] at h; cases h
  | ok w => rw [hg] at h; cases h; rfl

lemma getattr_error {b : CodeBuilder} {key : String} {e : Err}
    (h : b.getattr key = .error e) : e = .codeValidation (.notSet key) := by
  unfold CodeBuilder.getattr at h
  split at h
  · split at h
    · cases h
    · cases h; rfl
  · cases h

lemma gac_error {b : CodeBuilder} {key : String} {u : List String} {e : Err}
    (h : b._get_and_count key u = .error e) : e = .codeValidation (.notSet key) := by
  unfold CodeBuilder._get_and_count at h
  cases hg : b.getattr key with
  | error e2 => rw [hg] at h; cases h; exact getattr_error hg
  | ok w => rw [hg] at h; cases h

lemma buildCommon_used {b : CodeBuilder} {core : CodeCore} {u : List String}
    {c : Code} {u2 : List String} (h : buildCommon b core u = .ok (c, u2)) :
    u2 = usedAdd (usedAdd (usedAdd (usedAdd (usedAdd u "label") "description")
      "input_plugin") "prepend_text") "append_text" := by
  unfold buildCommon at h
  split at h
  · cases h
  case _ lab u1 heq1 =>
    split at h
    · cases h
    case _ desc ua heqa =>
      split at h
      · cases h
      case _ plug ub heqb =>
        split at h
        · cases h
        case _ pname heqn =>
          split at h
          · cases h
          case _ pre uc heqc =>
            split at h
            · cases h
            case _ app ud heqd =>
              cases h
              rw [gac_ok heqd, gac_ok heqc, gac_ok heqb, gac_ok heqa, gac_ok heq1]

lemma buildCommon_error {b : CodeBuilder} {core : CodeCore} {u : List String}
    {e : Err} (h : buildCommon b core u = .error e) :
    (∃ k, e = .codeValidation (.notSet k)) ∨ e = .attributeError "name" := by
  unfold buildCommon at h
  split at h
  case _ heq => cases h; exact .inl ⟨_, gac_error heq⟩
  case _ =>
    split at h
    case _ heq => cases h; exact .inl ⟨_, gac_error heq⟩
    case _ =>
      split at h
      case _ heq => cases h; exact .inl ⟨_, gac_error heq⟩
      case _ =>
        split at h
        case _ => cases h; exact .inr rfl
        case _ =>
          split at h
          case _ heq => cases h; exact .inl ⟨_, gac_error heq⟩
          case _ =>
            split at h
            case _ heq => cases h; exact .inl ⟨_, gac_error heq⟩
            case _ => cases h

/-- On success, the `used` set computed by the variant branch plus the
metadata tail is one of two fixed key lists — neither of which contains
`"code_type"`. -/
lemma buildSteps_used {fs : FileSys} {b : CodeBuilder} {ctv : Value}
    {c : Code} {u : List String} (h : buildSteps fs b ctv = .ok (c, u)) :
    u = ["code_folder", "code_rel_path", "label", "description", "input_plugin",
         "prepend_text", "append_text"]
    ∨ u = ["computer", "remote_abs_path", "label", "description", "input_plugin",
           "prepend_text", "append_text"] := by
  unfold buildSteps at h
  split at h
  · split at h
    · cases h
    case _ folder u1 heq1 =>
      split at h
      · cases h
      case _ rel ua heqa =>
        left
        rw [buildCommon_used h, gac_ok heqa, gac_ok heq1]
        rfl
  · split at h
    · cases h
    case _ comp u1 heq1 =>
      split at h
      · cases h
      case _ rap ua heqa =>
        right
        rw [buildCommon_used h, gac_ok heqa, gac_ok heq1]
        rfl

lemma validate_eq (b : CodeBuilder) (raise_error : Bool) :
    b.validate raise_error =
      ({ b with _err_acc := b._err_acc ++ runValidations b._code_spec },
       if raise_error && !(b._err_acc ++ runValidations b._code_spec).isEmpty then
         .error (.codeValidationAgg (b._err_acc ++ runValidations b._code_spec))
       else .ok ((b._err_acc ++ runValidations b._code_spec).isEmpty,
                 b._err_acc ++ runValidations b._code_spec)) := by
  unfold CodeBuilder.validate
  cases h : raise_error && !(b._err_acc ++ runValidations b._code_spec).isEmpty <;> simp [h]

lemma new_eq (fs : FileSys) (b : CodeBuilder) :
    b.new fs =
      (let acc := b._err_acc ++ runValidations b._code_spec
       let b1 : CodeBuilder := { b with _err_acc := acc }
       if acc.isEmpty then
         (b1,
           match b1.getattr "code_type" with
           | .error e => .error e
           | .ok ctv =>
             match buildSteps fs b1 ctv with
             | .error e => .error e
             | .ok (code, used) =>
               let unknowns := (b1._code_spec.map Prod.fst).filter (fun k => !(used.contains k))
               if !unknowns.isEmpty then
                 .error (.codeValidation (.unknownParams (sortStrings unknowns)))
               else .ok code)
       else (b1, .error (.codeValidationAgg acc))) := by
  unfold CodeBuilder.new
  rw [validate_eq]
  cases hIsE : (b._err_acc ++ runValidations b._code_spec).isEmpty <;> simp [hIsE]

lemma set_code_attr_eq (b : CodeBuilder) (key : String) (v : Value) :
    b._set_code_attr key v =
      (let s1 := specSet b._code_spec key v
       let acc1 := b._err_acc ++ runValidations s1
       if acc1.isEmpty then ({ _code_spec := s1, _err_acc := acc1 }, none)
       else
         let acc2 := acc1 ++ runValidations b._code_spec
         ({ _code_spec := b._code_spec, _err_acc := acc2 },
          some (.codeValidationAgg acc2))) := by
  unfold CodeBuilder._set_code_attr
  simp only [validate_eq, Bool.false_and, Bool.false_eq_true, if_false]
  cases hacc : b._err_acc ++ runValidations (specSet b._code_spec key v) with
  | nil => simp [hacc]
  | cons m ms => simp [hacc, validate_eq, List.cons_append]

lemma buildSteps_error {fs : FileSys} {b : CodeBuilder} {ctv : Value} {e : Err}
    (h : buildSteps fs b ctv = .error e) :
    (∃ k, e = .codeValidation (.notSet k)) ∨ e = .attributeError "name" := by
  unfold buildSteps at h
  split at h
  · split at h
    case _ heq => cases h; exact .inl ⟨_, gac_error heq⟩
    case _ =>
      split at h
      case _ heq => cases h; exact .inl ⟨_, gac_error heq⟩
      case _ => exact buildCommon_error h
  · split at h
    case _ heq => cases h; exact .inl ⟨_, gac_error heq⟩
    case _ =>
      split at h
      case _ heq => cases h; exact .inl ⟨_, gac_error heq⟩
      case _ => exact buildCommon_error h

lemma runValidations_no_code_type {s : Spec} (h : specGet s "code_type" = none) :
    runValidations s = [] := by
  simp [runValidations, validate_code_type, validate_upload, validate_installed, h, optEqCT]

lemma isEmpty_append_right {α : Type} {l1 l2 : List α} (h : l2 ≠ []) :
    (l1 ++ l2).isEmpty = false := by
  cases l1 <;> cases l2 <;> simp_all

/-! ### Claim theorems -/

/-- C6: for every specification that does not contain the variant tag
and contains only common attributes (label, description, input handler,
pre-run text, post-run text), `validate` returns success with an empty
violation list and raises nothing — both with and without
`raise_error`. -/
theorem c6_common_attrs_validate_trivially (kwargs : Spec)
    (h : ∀ k ∈ kwargs.map Prod.fst,
      k ∈ ["label", "description", "input_plugin", "prepend_text", "append_text"]) :
    ((CodeBuilder.fromKwargs kwargs).validate true).2 = .ok (true, [])
    ∧ ((CodeBuilder.fromKwargs kwargs).validate false).2 = .ok (true, []) := by
  have hct : specGet kwargs "code_type" = none := by
    cases hg : specGet kwargs "code_type" with
    | none => rfl
    | some v => have hmem := h _ (specGet_mem hg); simp at hmem
  have hrun := runValidations_no_code_type hct
  constructor <;> (rw [validate_eq]; simp [CodeBuilder.fromKwargs, hrun])

/-- Witness for C6 at a concrete common-attributes specification. -/
theorem c6_witness :
    ((CodeBuilder.fromKwargs
        [("label", Value.str "mycode"), ("description", Value.str "a code"),
         ("input_plugin", Value.plugin "quantumespresso.pw"),
         ("prepend_text", Value.str ""), ("append_text", Value.str "")]).validate true).2
      = .ok (true, []) :=
  (c6_common_attrs_validate_trivially _ (by decide)).1

/-- C10: the variant-conflict rules test attribute values for
truthiness, not presence: a store-and-upload specification whose
`computer` key is present but falsy (and whose `remote_abs_path` is
falsy or absent) passes validation, and symmetrically for an
on-computer specification with a falsy `code_folder` (and falsy or
absent `code_rel_path`). -/
theorem c10_conflict_rules_test_truthiness (kwargs : Spec) :
    (specGet kwargs "code_type" = some (.codeType .STORE_AND_UPLOAD) →
      (specGet kwargs "computer").isSome = true →
      optTruthy (specGet kwargs "computer") = false →
      optTruthy (specGet kwargs "remote_abs_path") = false →
      ((CodeBuilder.fromKwargs kwargs).validate true).2 = .ok (true, []))
    ∧ (specGet kwargs "code_type" = some (.codeType .ON_COMPUTER) →
      (specGet kwargs "code_folder").isSome = true →
      optTruthy (specGet kwargs "code_folder") = false →
      optTruthy (specGet kwargs "code_rel_path") = false →
      ((CodeBuilder.fromKwargs kwargs).validate true).2 = .ok (true, [])) := by
  constructor <;>
    (intro hct _hpresent h1 h2
     have hrun : runValidations kwargs = [] := by
       simp [runValidations, validate_code_type, validate_upload, validate_installed,
             hct, optEqCT, valueEqCT, truthy, isCTMember, h1, h2]
     rw [validate_eq]
     simp [CodeBuilder.fromKwargs, hrun])

/-- Witness for C10: `computer` present as the empty string in a
store-and-upload specification; validation still succeeds. -/
theorem c10_witness :
    ((CodeBuilder.fromKwargs
        [("code_type", Value.codeType .STORE_AND_UPLOAD),
         ("computer", Value.str "")]).validate true).2 = .ok (true, []) :=
  (c10_conflict_rules_test_truthiness _).1 (by rfl) (by rfl) (by rfl) (by rfl)

/-- C8: for every non-underscore key, attribute access returns the
current value when the key is set and raises the not-set
`CodeValidationError` otherwise (never a silent default); the rendered
message is the key followed by " not set"; and reading an unset key
through `_get_and_count` during build raises the same error. -/
theorem c8_get_never_defaults (b : CodeBuilder) (key : String)
    (hk : startswithUnderscore key = false) :
    (∀ v, specGet b._code_spec key = some v → b.getattr key = .ok v)
    ∧ (specGet b._code_spec key = none →
        b.getattr key = .error (.codeValidation (.notSet key))
        ∧ ∃ t, (CVMsg.notSet key).text = key ++ t)
    ∧ (∀ used, specGet b._code_spec key = none →
        b._get_and_count key used = .error (.codeValidation (.notSet key))) := by
  refine ⟨fun v hv => ?_, fun hn => ⟨?_, ⟨" not set", rfl⟩⟩, fun used hn => ?_⟩
  · unfold CodeBuilder.getattr; simp [hk, hv]
  · unfold CodeBuilder.getattr; simp [hk, hn]
  · unfold CodeBuilder._get_and_count CodeBuilder.getattr; simp [hk, hn]

/-- Witness for C8 at a concrete builder: a set key is returned, and an
unset key raises the not-set error from `_get_and_count`. -/
theorem c8_witness :
    (CodeBuilder.fromKwargs [("label", Value.str "mycode")]).getattr "label"
        = .ok (Value.str "mycode")
    ∧ (CodeBuilder.fromKwargs [("label", Value.str "mycode")])._get_and_count "computer" []
        = .error (.codeValidation (.notSet "computer")) :=
  ⟨(c8_get_never_defaults _ "label" (by decide)).1 _ rfl,
   (c8_get_never_defaults _ "computer" (by decide)).2.2 [] rfl⟩

/-- C3: whenever the specification resulting from `set(key, value)`
violates some validation rule, the mutation is rolled back atomically:
the returned builder carries the pre-call specification unchanged (so
`get(key)` answers exactly as before the call, value or not-set error),
and an aggregate `CodeValidationError` is raised whose message list
contains every rule violation of the attempted specification. -/
theorem c3_set_rolls_back_atomically (b : CodeBuilder) (key : String) (v : Value)
    (hk : startswithUnderscore key = false)
    (hbad : runValidations (specSet b._code_spec key v) ≠ []) :
    ∃ b2 msgs, b.setattr key v = (b2, some (.codeValidationAgg msgs))
      ∧ b2._code_spec = b._code_spec
      ∧ b2.getattr key = b.getattr key
      ∧ b2._err_acc = msgs
      ∧ ∀ m ∈ runValidations (specSet b._code_spec key v), m ∈ msgs := by
  have hne : (b._err_acc ++ runValidations (specSet b._code_spec key v)).isEmpty = false :=
    isEmpty_append_right hbad
  unfold CodeBuilder.setattr
  rw [set_code_attr_eq]
  simp only [hk, Bool.not_false, if_true, hne, Bool.false_eq_true, if_false]
  refine ⟨_, _, rfl, rfl, rfl, rfl, fun m hm => ?_⟩
  simp [List.mem_append]
  tauto

/-- Witness for C3: setting `computer` on a store-and-upload builder is
rolled back and raises. -/
theorem c3_witness :
    ∃ b2 msgs,
      (CodeBuilder.fromKwargs [("code_type", Value.codeType .STORE_AND_UPLOAD)]).setattr
          "computer" (Value.str "mycomputer") = (b2, some (.codeValidationAgg msgs))
      ∧ b2._code_spec
          = (CodeBuilder.fromKwargs [("code_type", Value.codeType .STORE_AND_UPLOAD)])._code_spec
      ∧ b2.getattr "computer"
          = (CodeBuilder.fromKwargs [("code_type", Value.codeType .STORE_AND_UPLOAD)]).getattr
              "computer"
      ∧ b2._err_acc = msgs
      ∧ ∀ m ∈ runValidations (specSet
            (CodeBuilder.fromKwargs
              [("code_type", Value.codeType .STORE_AND_UPLOAD)])._code_spec
            "computer" (Value.str "mycomputer")), m ∈ msgs :=
  c3_set_rolls_back_atomically _ "computer" (Value.str "mycomputer") (by decide) (by decide)

/-- C9: for every specification passed to the constructor, `new()`
raises: when the variant tag is absent, validation passes trivially on
that front and reading `self.code_type` raises the not-set
`CodeValidationError` before any branch is taken; when the tag is
present, it is read through plain attribute access and never added to
the consumed-key set, so whenever the unknown-parameters error is
reached its key list contains `"code_type"` — `new()` can never return
a code. -/
theorem c9_new_never_returns_code (fs : FileSys) (kwargs : Spec) :
    (∃ e, ((CodeBuilder.fromKwargs kwargs).new fs).2 = .error e)
    ∧ (specGet kwargs "code_type" = none →
        ((CodeBuilder.fromKwargs kwargs).new fs).2
          = .error (.codeValidation (.notSet "code_type")))
    ∧ (∀ ks, ((CodeBuilder.fromKwargs kwargs).new fs).2
          = .error (.codeValidation (.unknownParams ks)) → "code_type" ∈ ks) := by
  have hu : startswithUnderscore "code_type" = false := by decide
  cases hrun : runValidations kwargs with
  | cons m ms =>
    have hres : ((CodeBuilder.fromKwargs kwargs).new fs).2
        = .error (.codeValidationAgg (m :: ms)) := by
      rw [new_eq]; simp [CodeBuilder.fromKwargs, hrun]
    refine ⟨⟨_, hres⟩, fun hct => ?_, fun ks hks => ?_⟩
    · rw [runValidations_no_code_type hct] at hrun; cases hrun
    · rw [hres] at hks; simp at hks
  | nil =>
    have hnew : ((CodeBuilder.fromKwargs kwargs).new fs).2 =
        (match (CodeBuilder.fromKwargs kwargs).getattr "code_type" with
         | .error e => .error e
         | .ok ctv =>
           match buildSteps fs (CodeBuilder.fromKwargs kwargs) ctv with
           | .error e => .error e
           | .ok (code, used) =>
             let unknowns := (kwargs.map Prod.fst).filter (fun k => !(used.contains k))
             if !unknowns.isEmpty then
               .error (.codeValidation (.unknownParams (sortStrings unknowns)))
             else .ok code) := by
      rw [new_eq]; simp [CodeBuilder.fromKwargs, hrun]
    cases hg : specGet kwargs "code_type" with
    | none =>
      have hga : (CodeBuilder.fromKwargs kwargs).getattr "code_type"
          = .error (.codeValidation (.notSet "code_type")) := by
        unfold CodeBuilder.getattr; simp [CodeBuilder.fromKwargs, hu, hg]
      rw [hga] at hnew
      simp only [] at hnew
      refine ⟨⟨_, hnew⟩, fun _ => hnew, fun ks hks => ?_⟩
      rw [hnew] at hks; simp at hks
    | some ctv =>
      have hga : (CodeBuilder.fromKwargs kwargs).getattr "code_type" = .ok ctv := by
        unfold CodeBuilder.getattr; simp [CodeBuilder.fromKwargs, hu, hg]
      rw [hga] at hnew
      simp only [] at hnew
      cases hb : buildSteps fs (CodeBuilder.fromKwargs kwargs) ctv with
      | error e =>
        rw [hb] at hnew
        simp only [] at hnew
        refine ⟨⟨e, hnew⟩, fun hct => ?_, fun ks hks => ?_⟩
        · cases hct
        · rw [hnew] at hks
          rcases buildSteps_error hb with ⟨k, hk⟩ | hk <;> rw [hk] at hks <;> simp at hks
      | ok pair =>
        obtain ⟨code, used⟩ := pair
        rw [hb] at hnew
        have hcontains : used.contains "code_type" = false := by
          rcases buildSteps_used hb with h | h <;> rw [h] <;> decide
        have hmem : "code_type" ∈ (kwargs.map Prod.fst).filter
            (fun k => !(used.contains k)) := by
          rw [List.mem_filter]
          exact ⟨specGet_mem hg, by rw [hcontains]; rfl⟩
        have hne : ((kwargs.map Prod.fst).filter
            (fun k => !(used.contains k))).isEmpty = false := by
          cases hfil : (kwargs.map Prod.fst).filter (fun k => !(used.contains k)) with
          | nil => rw [hfil] at hmem; cases hmem
          | cons a as => rfl
        simp only [hne, Bool.not_false, eq_self_iff_true, if_true] at hnew
        refine ⟨⟨_, hnew⟩, fun hct => ?_, fun ks hks => ?_⟩
        · cases hct
        · have heq := hnew.symm.trans hks
          simp only [Except.error.injEq, Err.codeValidation.injEq,
            CVMsg.unknownParams.injEq] at heq
          rw [← heq]
          exact mem_sortStrings.mpr hmem

/-- Witness for C9 at a concrete specification without the variant
tag: `new()` raises the not-set error for `code_type`. -/
theorem c9_witness :
    ((CodeBuilder.fromKwargs [("label", Value.str "mycode")]).new
        ⟨fun _ => [], fun _ _ => ""⟩).2
      = .error (.codeValidation (.notSet "code_type")) :=
  (c9_new_never_returns_code ⟨fun _ => [], fun _ _ => ""⟩ _).2.1 rfl

/-- C1 counterexample: on a specification with exactly the keys
label, description, input_plugin, code_folder, code_rel_path (the
claimed store-and-upload round-trip set), `build()` does not succeed:
it raises the not-set `CodeValidationError` for `code_type` and never
returns a code object. -/
theorem c1_counterexample :
    ((CodeBuilder.fromKwargs
        [("label", Value.str "mycode"), ("description", Value.str "a code"),
         ("input_plugin", Value.plugin "quantumespresso.pw"),
         ("code_folder", Value.str "/home/user/code"),
         ("code_rel_path", Value.str "code.exe")]).new
        ⟨fun _ => [], fun _ _ => ""⟩).2
      = .error (.codeValidation (.notSet "code_type")) := rfl

/-- C1 amended: for every choice of values and every file system,
`build()` on a specification with exactly the keys label, description,
input_plugin, code_folder, code_rel_path raises the
`CodeValidationError` "code_type not set" instead of succeeding — the
variant tag is not among those keys, and reading it is the first thing
`new()` does after validation (which passes trivially without the
tag). -/
theorem c1_amended (fs : FileSys) (l d p f r : Value) :
    ((CodeBuilder.fromKwargs
        [("label", l), ("description", d), ("input_plugin", p),
         ("code_folder", f), ("code_rel_path", r)]).new fs).2
      = .error (.codeValidation (.notSet "code_type")) := rfl

/-- C2 counterexample: a specification in which both the
store-and-upload-only attributes (code_folder, code_rel_path) and the
on-computer-only attributes (computer, remote_abs_path) are non-empty
but the variant tag is absent passes `validate(raise_error=true)`
without raising anything — no conflict rule fires, contradicting the
claim that both rules fire when the tag is absent. -/
theorem c2_counterexample :
    ((CodeBuilder.fromKwargs
        [("code_folder", Value.str "/folder"), ("code_rel_path", Value.str "rel"),
         ("computer", Value.computer "localhost"),
         ("remote_abs_path", Value.str "/usr/bin/x")]).validate true).2
      = .ok (true, []) := rfl

/-- C2 amended: on a fresh builder whose four variant-specific
attributes are all truthy, the conflict rules are driven by the tag:
when the tag is store-and-upload the upload rule alone fires and the
raised aggregate carries its two distinct invalid-option messages; when
the tag is on-computer the installed rule alone fires with its two
distinct messages; when the tag is absent neither rule fires and
validation succeeds. -/
theorem c2_amended (kwargs : Spec)
    (hcomp : optTruthy (specGet kwargs "computer") = true)
    (hrap : optTruthy (specGet kwargs "remote_abs_path") = true)
    (hfold : optTruthy (specGet kwargs "code_folder") = true)
    (hrel : optTruthy (specGet kwargs "code_rel_path") = true) :
    (specGet kwargs "code_type" = some (.codeType .STORE_AND_UPLOAD) →
      ((CodeBuilder.fromKwargs kwargs).validate true).2
        = .error (.codeValidationAgg [.invalidOptions
            ["invalid option for store-and-upload code: \"computer\"",
             "invalid option for store-and-upload code: \"remote_abs_path\""]]))
    ∧ (specGet kwargs "code_type" = some (.codeType .ON_COMPUTER) →
      ((CodeBuilder.fromKwargs kwargs).validate true).2
        = .error (.codeValidationAgg [.invalidOptions
            ["invalid options for on-computer code: \"code_folder\"",
             "invalid options for on-computer code: \"code_rel_path\""]]))
    ∧ (specGet kwargs "code_type" = none →
      ((CodeBuilder.fromKwargs kwargs).validate true).2 = .ok (true, []))
    ∧ ("invalid option for store-and-upload code: \"computer\""
        ≠ "invalid option for store-and-upload code: \"remote_abs_path\"")
    ∧ ("invalid options for on-computer code: \"code_folder\""
        ≠ "invalid options for on-computer code: \"code_rel_path\"") := by
  refine ⟨fun hct => ?_, fun hct => ?_, fun hct => ?_, by decide, by decide⟩
  · have hrun : runValidations kwargs
        = [.invalidOptions
            ["invalid option for store-and-upload code: \"computer\"",
             "invalid option for store-and-upload code: \"remote_abs_path\""]] := by
      simp [runValidations, validate_code_type, validate_upload, validate_installed,
            hct, hcomp, hrap, optEqCT, valueEqCT, truthy, isCTMember]
    rw [validate_eq]
    simp [CodeBuilder.fromKwargs, hrun]
  · have hrun : runValidations kwargs
        = [.invalidOptions
            ["invalid options for on-computer code: \"code_folder\"",
             "invalid options for on-computer code: \"code_rel_path\""]] := by
      simp [runValidations, validate_code_type, validate_upload, validate_installed,
            hct, hfold, hrel, optEqCT, valueEqCT, truthy, isCTMember]
    rw [validate_eq]
    simp [CodeBuilder.fromKwargs, hrun]
  · have hrun := runValidations_no_code_type hct
    rw [validate_eq]
    simp [CodeBuilder.fromKwargs, hrun]

/-- Witness for the amended C2 at a concrete store-and-upload
specification with all four conflict attributes truthy. -/
theorem c2_amended_witness :
    ((CodeBuilder.fromKwargs
        [("code_type", Value.codeType .STORE_AND_UPLOAD),
         ("code_folder", Value.str "/folder"), ("code_rel_path", Value.str "rel"),
         ("computer", Value.computer "localhost"),
         ("remote_abs_path", Value.str "/usr/bin/x")]).validate true).2
      = .error (.codeValidationAgg [.invalidOptions
          ["invalid option for store-and-upload code: \"computer\"",
           "invalid option for store-and-upload code: \"remote_abs_path\""]]) :=
  (c2_amended
    [("code_type", Value.codeType .STORE_AND_UPLOAD),
     ("code_folder", Value.str "/folder"), ("code_rel_path", Value.str "rel"),
     ("computer", Value.computer "localhost"),
     ("remote_abs_path", Value.str "/usr/bin/x")] rfl rfl rfl rfl).1 rfl

/-- C4 counterexample: a specification in which both variant-specific
attribute subsets are populated with truthy values — but no variant tag
is set — passes validation, contradicting the claim that every
specification populating both subsets fails validation. -/
theorem c4_counterexample :
    ((CodeBuilder.fromKwargs
        [("code_folder", Value.str "/data/codes"), ("code_rel_path", Value.str "run.sh"),
         ("computer", Value.computer "cluster"),
         ("remote_abs_path", Value.str "/opt/bin/run")]).validate true).2
      = .ok (true, [])
    ∧ optTruthy (specGet
        [("code_folder", Value.str "/data/codes"), ("code_rel_path", Value.str "run.sh"),
         ("computer", Value.computer "cluster"),
         ("remote_abs_path", Value.str "/opt/bin/run")] "code_folder") = true
    ∧ optTruthy (specGet
        [("code_folder", Value.str "/data/codes"), ("code_rel_path", Value.str "run.sh"),
         ("computer", Value.computer "cluster"),
         ("remote_abs_path", Value.str "/opt/bin/run")] "computer") = true :=
  ⟨rfl, rfl, rfl⟩

/-- C4 amended: the mutual-exclusion invariant holds only when the
variant tag is present: a fresh builder tagged with one variant whose
other-variant subset has any truthy attribute fails validation with a
non-empty aggregate error; and the domain object is never constructed
from a failing specification — `new()` returns exactly the error of the
initial `validate()` call. -/
theorem c4_amended :
    (∀ kwargs : Spec,
      specGet kwargs "code_type" = some (.codeType .STORE_AND_UPLOAD) →
      (optTruthy (specGet kwargs "computer") = true
        ∨ optTruthy (specGet kwargs "remote_abs_path") = true) →
      ∃ msgs, msgs ≠ []
        ∧ ((CodeBuilder.fromKwargs kwargs).validate true).2
            = .error (.codeValidationAgg msgs))
    ∧ (∀ kwargs : Spec,
      specGet kwargs "code_type" = some (.codeType .ON_COMPUTER) →
      (optTruthy (specGet kwargs "code_folder") = true
        ∨ optTruthy (specGet kwargs "code_rel_path") = true) →
      ∃ msgs, msgs ≠ []
        ∧ ((CodeBuilder.fromKwargs kwargs).validate true).2
            = .error (.codeValidationAgg msgs))
    ∧ (∀ (fs : FileSys) (b : CodeBuilder) (e : Err),
      (b.validate true).2 = .error e → (b.new fs).2 = .error e) := by
  refine ⟨fun kwargs hct hor => ?_, fun kwargs hct hor => ?_, fun fs b e h => ?_⟩
  · have hvu : (validate_upload kwargs).isSome = true := by
      rcases hor with h1 | h1 <;>
        [cases h2 : optTruthy (specGet kwargs "remote_abs_path");
         cases h2 : optTruthy (specGet kwargs "computer")] <;>
        simp [validate_upload, hct, optEqCT, valueEqCT, h1, h2]
    have hrunne : runValidations kwargs ≠ [] := by
      cases hu : validate_upload kwargs with
      | none => rw [hu] at hvu; simp at hvu
      | some mm => simp [runValidations, hu]
    have hie : (runValidations kwargs).isEmpty = false := by
      cases hc : runValidations kwargs with
      | nil => exact absurd hc hrunne
      | cons x xs => rfl
    refine ⟨runValidations kwargs, hrunne, ?_⟩
    rw [validate_eq]
    simp [CodeBuilder.fromKwargs, hie]
  · have hvi : (validate_installed kwargs).isSome = true := by
      rcases hor with h1 | h1 <;>
        [cases h2 : optTruthy (specGet kwargs "code_rel_path");
         cases h2 : optTruthy (specGet kwargs "code_folder")] <;>
        simp [validate_installed, hct, optEqCT, valueEqCT, h1, h2]
    have hrunne : runValidations kwargs ≠ [] := by
      cases hu : validate_installed kwargs with
      | none => rw [hu] at hvi; simp at hvi
      | some mm => simp [runValidations, hu]
    have hie : (runValidations kwargs).isEmpty = false := by
      cases hc : runValidations kwargs with
      | nil => exact absurd hc hrunne
      | cons x xs => rfl
    refine ⟨runValidations kwargs, hrunne, ?_⟩
    rw [validate_eq]
    simp [CodeBuilder.fromKwargs, hie]
  · rw [validate_eq] at h
    cases hie : (b._err_acc ++ runValidations b._code_spec).isEmpty with
    | true => rw [hie] at h; simp at h
    | false =>
      rw [hie] at h
      simp only [Bool.not_false, Bool.and_true, if_true] at h
      rw [new_eq]
      simp [hie]
      exact (Except.error.inj h).symm ▸ rfl

/-- Witness for the amended C4: a store-and-upload builder with a
truthy `computer` attribute fails validation with a non-empty
aggregate. -/
theorem c4_amended_witness :
    ∃ msgs, msgs ≠ []
      ∧ ((CodeBuilder.fromKwargs
          [("code_type", Value.codeType .STORE_AND_UPLOAD),
           ("computer", Value.computer "cluster")]).validate true).2
          = .error (.codeValidationAgg msgs) :=
  c4_amended.1
    [("code_type", Value.codeType .STORE_AND_UPLOAD),
     ("computer", Value.computer "cluster")] rfl (Or.inl rfl)

/-- C5 counterexample: with an extra key "xtra" alongside an otherwise
complete store-and-upload specification, `build()` raises — but the
error is the very same Python class `CodeValidationError` used for
validation failures (there is no distinct ConstructionIntegrityError in
the code), and the unknown-parameter list it names is
["code_type", "xtra"], not exactly ["xtra"]. -/
theorem c5_counterexample :
    (((CodeBuilder.fromKwargs
        [("code_type", Value.codeType .STORE_AND_UPLOAD),
         ("code_folder", Value.str "/usr/local/codes"),
         ("code_rel_path", Value.str "exe"), ("label", Value.str "mycode"),
         ("description", Value.str "a code"),
         ("input_plugin", Value.plugin "quantumespresso.pw"),
         ("prepend_text", Value.str ""), ("append_text", Value.str ""),
         ("xtra", Value.str "x")]).new ⟨fun _ => [], fun _ _ => ""⟩).2
      = .error (.codeValidation (.unknownParams ["code_type", "xtra"])))
    ∧ ((CodeBuilder.fromKwargs
        [("code_type", Value.codeType .STORE_AND_UPLOAD)]).setattr "computer"
        (Value.str "remote01")).2
      = some (.codeValidationAgg
          [.invalidOptions ["invalid option for store-and-upload code: \"computer\""]])
    ∧ errClass (.codeValidation (.unknownParams ["code_type", "xtra"]))
      = errClass (.codeValidationAgg
          [.invalidOptions ["invalid option for store-and-upload code: \"computer\""]])
    ∧ (["code_type", "xtra"] ≠ ["xtra"]) :=
  ⟨rfl, rfl, rfl, by decide⟩

/-- C5 amended: for every choice of attribute values, plugin name and
file system, `build()` on a complete store-and-upload specification
carrying the extra key "xtra" raises a `CodeValidationError` — the same
exception class as pre-construction validation failures — naming
exactly the unconsumed keys, which are the extra key together with
"code_type" (read through plain attribute access and never counted as
consumed). -/
theorem c5_amended (fs : FileSys) (pn : String) (lv dv fv rv prev appv xv : Value) :
    ((CodeBuilder.fromKwargs
        [("code_type", Value.codeType .STORE_AND_UPLOAD), ("code_folder", fv),
         ("code_rel_path", rv), ("label", lv), ("description", dv),
         ("input_plugin", Value.plugin pn), ("prepend_text", prev),
         ("append_text", appv), ("xtra", xv)]).new fs).2
      = .error (.codeValidation (.unknownParams ["code_type", "xtra"]))
    ∧ errClass (.codeValidation (.unknownParams ["code_type", "xtra"]))
      = errClass (.codeValidationAgg []) :=
  ⟨rfl, rfl⟩

/-- C7 counterexample: `set` is not idempotent when the call fails.  On
a store-and-upload builder, setting `computer` once leaves one
accumulated violation message and raises an aggregate with that single
message; repeating the identical call leaves two copies of the message
and raises an aggregate listing it twice — an observable difference in
builder state and in the raised validation outcome. -/
theorem c7_counterexample :
    ((CodeBuilder.fromKwargs
        [("code_type", Value.codeType .STORE_AND_UPLOAD)]).setattr "computer"
        (Value.str "mycomputer")).1._err_acc
      = [.invalidOptions ["invalid option for store-and-upload code: \"computer\""]]
    ∧ (((CodeBuilder.fromKwargs
        [("code_type", Value.codeType .STORE_AND_UPLOAD)]).setattr "computer"
        (Value.str "mycomputer")).1.setattr "computer" (Value.str "mycomputer")).1._err_acc
      = [.invalidOptions ["invalid option for store-and-upload code: \"computer\""],
         .invalidOptions ["invalid option for store-and-upload code: \"computer\""]]
    ∧ (((CodeBuilder.fromKwargs
        [("code_type", Value.codeType .STORE_AND_UPLOAD)]).setattr "computer"
        (Value.str "mycomputer")).1.setattr "computer" (Value.str "mycomputer")).2
      = some (.codeValidationAgg
          [.invalidOptions ["invalid option for store-and-upload code: \"computer\""],
           .invalidOptions ["invalid option for store-and-upload code: \"computer\""]])
    ∧ (((CodeBuilder.fromKwargs
        [("code_type", Value.codeType .STORE_AND_UPLOAD)]).setattr "computer"
        (Value.str "mycomputer")).1.setattr "computer" (Value.str "mycomputer")).1
      ≠ ((CodeBuilder.fromKwargs
        [("code_type", Value.codeType .STORE_AND_UPLOAD)]).setattr "computer"
        (Value.str "mycomputer")).1 :=
  ⟨rfl, rfl, rfl, by decide⟩

/-- C7 amended: `set` is idempotent exactly on success — when
`set(key, value)` succeeds, repeating the identical call changes
nothing and succeeds again; a failing `set` is not idempotent, because
each repetition appends the violation messages to the accumulated error
state again (see the counterexample). -/
theorem c7_set_idempotent_on_success (b : CodeBuilder) (key : String) (v : Value)
    (b2 : CodeBuilder) (h : b.setattr key v = (b2, none)) :
    b2.setattr key v = (b2, none) := by
  unfold CodeBuilder.setattr at h ⊢
  cases hk : startswithUnderscore key with
  | true =>
    simp only [hk, Bool.not_true, Bool.false_eq_true, if_false] at h ⊢
  | false =>
    simp only [hk, Bool.not_false, if_true] at h ⊢
    rw [set_code_attr_eq] at h
    simp only [] at h
    cases hacc : (b._err_acc ++ runValidations (specSet b._code_spec key v)).isEmpty with
    | false => rw [hacc] at h; simp at h
    | true =>
      rw [hacc] at h
      simp only [if_true] at h
      obtain ⟨hb2, -⟩ := (Prod.mk.injEq _ _ _ _).mp h
      have hnil : b._err_acc ++ runValidations (specSet b._code_spec key v) = [] :=
        List.isEmpty_iff.mp hacc
      rw [set_code_attr_eq, ← hb2]
      simp only [specSet_idem, hnil]
      obtain ⟨ha, hb⟩ := List.append_eq_nil.mp hnil
      simp [hb]

/-- Witness for the amended C7: a successful `set` of `label` repeated
on the resulting builder returns the same state and succeeds. -/
theorem c7_witness :
    (CodeBuilder.mk [("label", Value.str "mycode")] []).setattr "label"
        (Value.str "mycode")
      = (CodeBuilder.mk [("label", Value.str "mycode")] [], none) :=
  c7_set_idempotent_on_success (CodeBuilder.fromKwargs []) "label" (Value.str "mycode")
    (CodeBuilder.mk [("label", Value.str "mycode")] []) rfl

end AiidaControlCode
